import Mathlib

/-!
# Verification of the Kobo → PostgreSQL mental-health pipeline

Shallow embedding of `src/pipeline.py` (a straight-line ETL script that
fetches a `;`-separated CSV from KoboToolbox, normalizes the column
headers, coerces the `start`/`end` columns to timestamps, and inserts the
mapped columns into the PostgreSQL table
`mental_health.mental_health_wellbeing`).

Strings are modelled as lists of Unicode code points (`PyStr := List Nat`)
so that the character-level transforms of the script (`strip`, `lower`,
`replace`) are plain list functions.  Cell values are modelled by the
inductive `Value` (a string, a timestamp, or SQL NULL); the timestamp
parsing performed by `pd.to_datetime` is abstracted into a parameter
`parse : Value → Option Int` returning the instant a value denotes, if it
parses.  The database side effects are modelled by an explicit `RunState`
record threaded through `runPipeline`.
-/

/-- A Python string, as its list of Unicode code points. -/
abbrev PyStr := List Nat

/-- Embed a Lean string literal as a `PyStr` (used only to write concrete
code points readably). -/
def strLit (s : String) : PyStr := s.data.map Char.toNat

/-- Python `str.strip` whitespace: space, tab, newline, carriage return,
vertical tab, form feed (the ASCII whitespace relevant to this pipeline). -/
def isPySpace (c : Nat) : Bool :=
  c = 32 || c = 9 || c = 10 || c = 13 || c = 11 || c = 12

/-- ASCII lowercasing of one code point, as done by `str.lower` on the
headers this pipeline sees. -/
def lowerChar (c : Nat) : Nat :=
  if 65 ≤ c ∧ c ≤ 90 then c + 32 else c

/-- `str.strip()`: drop leading and trailing whitespace
(`pipeline.py` line 46). -/
def pyStrip (s : PyStr) : PyStr :=
  ((s.dropWhile isPySpace).reverse.dropWhile isPySpace).reverse

/-- `str.lower()` (`pipeline.py` line 47). -/
def pyLower (s : PyStr) : PyStr := s.map lowerChar

/-- `str.replace(a, b)` for single-character pattern and replacement
(`pipeline.py` lines 48 and 50). -/
def replaceChar (a b : Nat) (s : PyStr) : PyStr :=
  s.map (fun c => if c = a then b else c)

/-- `str.replace("&", "and")` (`pipeline.py` line 49): code point 38 (`&`)
becomes the three code points 97 110 100 (`and`). -/
def replaceAmp (s : PyStr) : PyStr :=
  s.flatMap (fun c => if c = 38 then [97, 110, 100] else [c])

/-- The header cleaning of `pipeline.py` lines 44–51, applied to a single
header: strip, lowercase, spaces (32) to underscores (95), `&` to `and`,
hyphens (45) to underscores. -/
def pyNormalize (s : PyStr) : PyStr :=
  replaceChar 45 95 (replaceAmp (replaceChar 32 95 (pyLower (pyStrip s))))

/-- Reference transform written from the specification's words: "trim
whitespace, lowercase, replace spaces with underscores, replace `&` with
`and`, replace `-` with `_`". -/
def refNormalize (s : PyStr) : PyStr :=
  replaceChar 45 95 (replaceAmp (replaceChar 32 95 (pyLower (pyStrip s))))

section NormalizeLemmas

/-- ASCII lowercasing is idempotent. -/
theorem lowerChar_idem (c : Nat) : lowerChar (lowerChar c) = lowerChar c := by
  unfold lowerChar
  split_ifs <;> omega

/-- A map whose function fixes every element of the list is the identity. -/
theorem map_eq_self_of_fixed {α : Type} (f : α → α) (l : List α)
    (h : ∀ c ∈ l, f c = c) : l.map f = l := by
  induction l with
  | nil => rfl
  | cons a t ih =>
    simp only [List.map_cons]
    rw [h a (List.mem_cons_self a t), ih (fun c hc => h c (List.mem_cons_of_mem a hc))]

/-- `replaceAmp` is the identity on strings without an ampersand. -/
theorem replaceAmp_eq_self (l : PyStr) (h : ∀ c ∈ l, c ≠ 38) :
    replaceAmp l = l := by
  induction l with
  | nil => rfl
  | cons a t ih =>
    have ha : a ≠ 38 := h a (List.mem_cons_self a t)
    simp only [replaceAmp, List.flatMap_cons, if_neg ha, List.singleton_append,
      List.cons.injEq, true_and] at *
    exact ih (fun c hc => h c (List.mem_cons_of_mem a hc))

/-- Membership in a `replaceChar` image: each output code point is the
replacement or an input code point different from the pattern. -/
theorem mem_replaceChar {a b : Nat} {s : PyStr} {c : Nat}
    (h : c ∈ replaceChar a b s) : c = b ∨ (c ∈ s ∧ c ≠ a) := by
  unfold replaceChar at h
  rcases List.mem_map.1 h with ⟨d, hd, hc⟩
  by_cases hda : d = a
  · left; rw [← hc, if_pos hda]
  · right; rw [← hc, if_neg hda]; exact ⟨hd, hda⟩

/-- Membership in a `replaceAmp` image: each output code point is one of
`a`, `n`, `d` or an input code point that is not `&`. -/
theorem mem_replaceAmp {s : PyStr} {c : Nat} (h : c ∈ replaceAmp s) :
    c = 97 ∨ c = 110 ∨ c = 100 ∨ (c ∈ s ∧ c ≠ 38) := by
  unfold replaceAmp at h
  rcases List.mem_flatMap.1 h with ⟨d, hd, hc⟩
  by_cases hda : d = 38
  · rw [if_pos hda] at hc
    simp only [List.mem_cons, List.not_mem_nil, or_false] at hc
    rcases hc with rfl | rfl | rfl
    · exact Or.inl rfl
    · exact Or.inr (Or.inl rfl)
    · exact Or.inr (Or.inr (Or.inl rfl))
  · rw [if_neg hda] at hc
    simp only [List.mem_cons, List.not_mem_nil, or_false] at hc
    subst hc
    exact Or.inr (Or.inr (Or.inr ⟨hd, hda⟩))

end NormalizeLemmas

section BoundaryInvariants

/-- A list that does not begin with a whitespace code point (so Python
`strip` removes nothing from its front). -/
def headClear (l : PyStr) : Prop := l.dropWhile isPySpace = l

/-- A list that does not end with a whitespace code point (so Python
`strip` removes nothing from its back). -/
def lastClear (l : PyStr) : Prop := l.reverse.dropWhile isPySpace = l.reverse

theorem headClear_nil : headClear [] := rfl

theorem headClear_cons {a : Nat} {t : PyStr} :
    headClear (a :: t) ↔ isPySpace a = false := by
  constructor
  · intro h
    by_contra hs
    rw [Bool.not_eq_false] at hs
    unfold headClear at h
    rw [List.dropWhile_cons, if_pos hs] at h
    have hlen : (t.dropWhile isPySpace).length ≤ t.length :=
      (List.dropWhile_suffix isPySpace).sublist.length_le
    rw [h] at hlen
    simp at hlen
  · intro h
    unfold headClear
    rw [List.dropWhile_cons, if_neg (by rw [h]; exact Bool.false_ne_true)]

theorem lastClear_nil : lastClear [] := rfl

theorem lastClear_concat {a : Nat} {t : PyStr} :
    lastClear (t ++ [a]) ↔ isPySpace a = false := by
  unfold lastClear
  rw [List.reverse_append, List.reverse_cons, List.reverse_nil, List.nil_append,
    List.singleton_append]
  exact headClear_cons

/-- The result of `dropWhile isPySpace` never begins with whitespace. -/
theorem dropWhile_headClear (l : PyStr) : headClear (l.dropWhile isPySpace) := by
  induction l with
  | nil => exact headClear_nil
  | cons a t ih =>
    rw [List.dropWhile_cons]
    by_cases hs : isPySpace a = true
    · rw [if_pos hs]; exact ih
    · rw [if_neg hs]
      exact headClear_cons.2 (Bool.not_eq_true _ ▸ hs)

/-- A prefix of a list with a clear head has a clear head. -/
theorem headClear_of_append {u v : PyStr} (h : headClear (u ++ v)) :
    headClear u := by
  cases u with
  | nil => exact headClear_nil
  | cons a t =>
    rw [List.cons_append] at h
    exact headClear_cons.2 (headClear_cons.1 h)

/-- Stripping from the right preserves a clear head. -/
theorem headClear_rightStrip {l : PyStr} (h : headClear l) :
    headClear ((l.reverse.dropWhile isPySpace).reverse) := by
  obtain ⟨w, hw⟩ := List.dropWhile_suffix (l := l.reverse) isPySpace
  have : l = (l.reverse.dropWhile isPySpace).reverse ++ w.reverse := by
    have := congrArg List.reverse hw
    rw [List.reverse_append, List.reverse_reverse] at this
    exact this.symm
  exact headClear_of_append (this ▸ h)

/-- `pyStrip` output never begins with whitespace. -/
theorem headClear_pyStrip (s : PyStr) : headClear (pyStrip s) :=
  headClear_rightStrip (dropWhile_headClear s)

/-- `pyStrip` output never ends with whitespace. -/
theorem lastClear_pyStrip (s : PyStr) : lastClear (pyStrip s) := by
  unfold lastClear pyStrip
  rw [List.reverse_reverse]
  exact dropWhile_headClear _

/-- A list already clear at both ends is a fixed point of `pyStrip`. -/
theorem pyStrip_eq_self {l : PyStr} (h1 : headClear l) (h2 : lastClear l) :
    pyStrip l = l := by
  unfold pyStrip
  rw [h1, h2, List.reverse_reverse]

/-- A character map sending non-whitespace to non-whitespace preserves a
clear head. -/
theorem headClear_map {f : Nat → Nat}
    (hf : ∀ a, isPySpace a = false → isPySpace (f a) = false) {l : PyStr}
    (h : headClear l) : headClear (l.map f) := by
  cases l with
  | nil => exact headClear_nil
  | cons a t =>
    rw [List.map_cons]
    exact headClear_cons.2 (hf a (headClear_cons.1 h))

/-- A character map sending non-whitespace to non-whitespace preserves a
clear tail. -/
theorem lastClear_map {f : Nat → Nat}
    (hf : ∀ a, isPySpace a = false → isPySpace (f a) = false) {l : PyStr}
    (h : lastClear l) : lastClear (l.map f) := by
  unfold lastClear
  rw [← List.map_reverse]
  exact headClear_map hf h

theorem headClear_replaceChar {a b : Nat} (hb : isPySpace b = false)
    {l : PyStr} (h : headClear l) : headClear (replaceChar a b l) :=
  headClear_map (fun d hd => by by_cases hda : d = a <;> simp [hda, hb, hd]) h

theorem lastClear_replaceChar {a b : Nat} (hb : isPySpace b = false)
    {l : PyStr} (h : lastClear l) : lastClear (replaceChar a b l) :=
  lastClear_map (fun d hd => by by_cases hda : d = a <;> simp [hda, hb, hd]) h

theorem lowerChar_space (a : Nat) (h : isPySpace a = false) :
    isPySpace (lowerChar a) = false := by
  unfold lowerChar
  split
  · simp only [isPySpace, Bool.or_eq_false_iff, decide_eq_false_iff_not] at *
    omega
  · exact h

theorem headClear_pyLower {l : PyStr} (h : headClear l) :
    headClear (pyLower l) := headClear_map lowerChar_space h

theorem lastClear_pyLower {l : PyStr} (h : lastClear l) :
    lastClear (pyLower l) := lastClear_map lowerChar_space h

theorem headClear_replaceAmp {l : PyStr} (h : headClear l) :
    headClear (replaceAmp l) := by
  cases l with
  | nil => exact headClear_nil
  | cons a t =>
    unfold replaceAmp
    rw [List.flatMap_cons]
    by_cases ha : a = 38
    · rw [if_pos ha, List.cons_append]
      exact headClear_cons.2 (by decide)
    · rw [if_neg ha, List.singleton_append]
      exact headClear_cons.2 (headClear_cons.1 h)

theorem lastClear_replaceAmp {l : PyStr} (h : lastClear l) :
    lastClear (replaceAmp l) := by
  cases l using List.reverseRecOn with
  | nil => exact lastClear_nil
  | append_singleton t a =>
    unfold replaceAmp
    rw [List.flatMap_append, List.flatMap_cons, List.flatMap_nil, List.append_nil]
    by_cases ha : a = 38
    · rw [if_pos ha]
      rw [show t.flatMap (fun c => if c = 38 then [97, 110, 100] else [c]) ++
            [97, 110, 100] =
          (t.flatMap (fun c => if c = 38 then [97, 110, 100] else [c]) ++
            [97, 110]) ++ [100] by simp]
      exact lastClear_concat.2 (by decide)
    · rw [if_neg ha]
      exact lastClear_concat.2 (lastClear_concat.1 h)

end BoundaryInvariants

section Idempotence

/-- `replaceChar` is the identity when the pattern does not occur. -/
theorem replaceChar_eq_self {a b : Nat} {l : PyStr} (h : ∀ c ∈ l, c ≠ a) :
    replaceChar a b l = l :=
  map_eq_self_of_fixed _ _ (fun c hc => if_neg (h c hc))

/-- Every code point of a normalized header is lowercase-fixed and is not a
space, an ampersand, or a hyphen. -/
theorem pyNormalize_good (s : PyStr) :
    ∀ c ∈ pyNormalize s, lowerChar c = c ∧ c ≠ 32 ∧ c ≠ 38 ∧ c ≠ 45 := by
  intro c hc
  unfold pyNormalize at hc
  rcases mem_replaceChar hc with rfl | ⟨hc, h45⟩
  · refine ⟨by decide, by decide, by decide, by decide⟩
  rcases mem_replaceAmp hc with rfl | rfl | rfl | ⟨hc, h38⟩
  · exact ⟨by decide, by decide, by decide, by decide⟩
  · exact ⟨by decide, by decide, by decide, by decide⟩
  · exact ⟨by decide, by decide, by decide, by decide⟩
  rcases mem_replaceChar hc with rfl | ⟨hc, h32⟩
  · exact ⟨by decide, by decide, h38, h45⟩
  rcases List.mem_map.1 hc with ⟨d, _, rfl⟩
  exact ⟨lowerChar_idem d, h32, h38, h45⟩

/-- A normalized header never begins with whitespace. -/
theorem headClear_pyNormalize (s : PyStr) : headClear (pyNormalize s) :=
  headClear_replaceChar (by decide)
    (headClear_replaceAmp
      (headClear_replaceChar (by decide)
        (headClear_pyLower (headClear_pyStrip s))))

/-- A normalized header never ends with whitespace. -/
theorem lastClear_pyNormalize (s : PyStr) : lastClear (pyNormalize s) :=
  lastClear_replaceChar (by decide)
    (lastClear_replaceAmp
      (lastClear_replaceChar (by decide)
        (lastClear_pyLower (lastClear_pyStrip s))))

/-- A string clear at both ends whose code points are lowercase-fixed and
free of spaces, ampersands, and hyphens is a fixed point of the header
normalization. -/
theorem pyNormalize_fixed {l : PyStr} (h1 : headClear l) (h2 : lastClear l)
    (hg : ∀ c ∈ l, lowerChar c = c ∧ c ≠ 32 ∧ c ≠ 38 ∧ c ≠ 45) :
    pyNormalize l = l := by
  unfold pyNormalize
  rw [pyStrip_eq_self h1 h2]
  rw [show pyLower l = l from
    map_eq_self_of_fixed _ _ (fun c hc => (hg c hc).1)]
  rw [replaceChar_eq_self (fun c hc => (hg c hc).2.1)]
  rw [replaceAmp_eq_self l (fun c hc => (hg c hc).2.2.1)]
  exact replaceChar_eq_self (fun c hc => (hg c hc).2.2.2)

end Idempotence

section DataModel

/-- A cell value as it travels through the pipeline: a string from the CSV,
a timestamp produced by `pd.to_datetime` (an instant, in epoch units), or a
null (`NaT`/`NaN`/Python `None`, all of which reach PostgreSQL as NULL). -/
inductive Value where
  | str (s : PyStr)
  | ts (t : Int)
  | null
deriving DecidableEq, Repr

/-- The in-memory table produced by `pd.read_csv` (`pipeline.py` line 41):
the (cleaned or raw) column headers and the data rows, one list of cells
per CSV data row, in file order. -/
structure DataFrame where
  headers : List PyStr
  rows : List (List Value)
deriving DecidableEq, Repr

/-- The header cleaning of `pipeline.py` lines 44–51: every column label is
normalized in place; the data rows are untouched. -/
def cleanHeaders (df : DataFrame) : DataFrame :=
  { df with headers := df.headers.map pyNormalize }

/-- `pd.to_datetime(value, errors="coerce")` on one cell, abstracted over
the library's parsing function `parse` (which yields the instant a value
denotes, when it parses): a parseable value becomes that timestamp, an
unparseable one becomes null. -/
def coerceVal (parse : Value → Option Int) (v : Value) : Value :=
  match parse v with
  | some t => Value.ts t
  | none => Value.null

/-- One row of `df[name] = pd.to_datetime(df[name], errors="coerce")`:
cells in the named column are coerced, cells of other columns are kept. -/
def coerceRow (parse : Value → Option Int) (name : PyStr) :
    List PyStr → List Value → List Value
  | _, [] => []
  | [], vs => vs
  | h :: hs, v :: vs =>
    (if h = name then coerceVal parse v else v) :: coerceRow parse name hs vs

/-- `df[name] = pd.to_datetime(df[name], errors="coerce")` guarded by
`if name in df.columns` (`pipeline.py` lines 63–66). -/
def coerceNamed (parse : Value → Option Int) (name : PyStr)
    (df : DataFrame) : DataFrame :=
  if name ∈ df.headers then
    { df with rows := df.rows.map (coerceRow parse name df.headers) }
  else df

/-- Step 3 of the pipeline (`pipeline.py` lines 63–66): coerce the `start`
column if present, then the `end` column if present. -/
def convertTimestamps (parse : Value → Option Int) (df : DataFrame) :
    DataFrame :=
  coerceNamed parse (strLit "end") (coerceNamed parse (strLit "start") df)

end DataModel

section Mapping

/-- The static source-to-destination column mapping `COLUMN_MAP`
(`pipeline.py` lines 109–125), in its Python insertion order. -/
def COLUMN_MAP : List (PyStr × PyStr) :=
  [ (strLit "start", strLit "start_time"),
    (strLit "end", strLit "end_time"),
    (strLit "age_range", strLit "age_range"),
    (strLit "gender", strLit "gender"),
    (strLit "location", strLit "location"),
    (strLit "stressed_or_overwhelmed", strLit "stressed_or_overwhelmed"),
    (strLit "source_of_stress", strLit "source_of_stress"),
    (strLit "mental_health_issue_experienced",
      strLit "mental_health_issue_experienced"),
    (strLit "rate_your_current_mental_health",
      strLit "rate_your_current_mental_health"),
    (strLit "cope_with_stress_or_emotional_challenges",
      strLit "cope_with_stress_or_emotional_challenges"),
    (strLit "met_mental_health_professional",
      strLit "Met_mental_health_professional"),
    (strLit "seeking_support", strLit "seeking_support"),
    (strLit "interested_in_attending_therapy_sessions",
      strLit "interested_in_attending_therapy_sessions"),
    (strLit "joining_mental_health_support_group",
      strLit "joining_mental_health_support_group"),
    (strLit "mental_health_support_you_need",
      strLit "mental_health_support_you_need") ]

/-- `existing_columns = [col for col in COLUMN_MAP.keys() if col in
df.columns]` (`pipeline.py` line 128): the mapped source columns present
in the fetched headers, in mapping order. -/
def existingColumns (df : DataFrame) : List PyStr :=
  (COLUMN_MAP.map Prod.fst).filter (fun c => c ∈ df.headers)

/-- Python `COLUMN_MAP[col]` for a key known to be present (association
list lookup in insertion order). -/
def lookupDest : PyStr → List (PyStr × PyStr) → PyStr
  | _, [] => []
  | c, (k, v) :: rest => if c = k then v else lookupDest c rest

/-- The generated `INSERT` statement of `pipeline.py` lines 138–141,
by its two computed components: the destination column list
`[COLUMN_MAP[col] for col in existing_columns]` and the number of `%s`
placeholders `len(existing_columns)`. -/
structure InsertSpec where
  destColumns : List PyStr
  placeholders : Nat
deriving DecidableEq, Repr

/-- Build the insert statement components (`pipeline.py` lines 138–141). -/
def buildInsert (df : DataFrame) : InsertSpec :=
  { destColumns := (existingColumns df).map (fun c => lookupDest c COLUMN_MAP),
    placeholders := (existingColumns df).length }

/-- Python `row.get(col)` on one pandas row: the cell under the named
column, or `None` when the column is missing. -/
def rowGet (headers : List PyStr) (row : List Value) (col : PyStr) : Value :=
  match headers.findIdx? (fun h => h = col) with
  | some i => row.getD i Value.null
  | none => Value.null

/-- `values_list = [tuple(row.get(col) for col in existing_columns) for _,
row in df.iterrows()]` (`pipeline.py` line 150). -/
def valuesList (df : DataFrame) : List (List Value) :=
  df.rows.map (fun row => (existingColumns df).map (rowGet df.headers row))

end Mapping

section Run

/-- The externally visible effects of one script run: how many HTTP fetches
were attempted, whether a PostgreSQL connection was opened, whether the
schema / the (dropped and recreated, hence empty) destination table were
created, the rows of `mental_health.mental_health_wellbeing` with their
`SERIAL` primary keys, and whether the transaction was committed. -/
structure RunState where
  fetchAttempts : Nat
  connected : Bool
  schemaCreated : Bool
  tableCreated : Bool
  tableRows : List (Nat × List Value)
  committed : Bool
deriving DecidableEq, Repr

/-- The exceptions the script can raise: the explicit fetch-failure raise
(`pipeline.py` line 35), the explicit missing-columns raise (line 130),
and the `IndexError` that `df.iloc[0]` raises on an empty frame
(line 145). -/
inductive PipelineError where
  | fetchFailed (code : Nat)
  | noExpectedColumns
  | indexError
deriving DecidableEq, Repr

/-- State before the script does anything. -/
def initState : RunState :=
  { fetchAttempts := 0, connected := false, schemaCreated := false,
    tableCreated := false, tableRows := [], committed := false }

/-- Attach the auto-incrementing `SERIAL` primary key (1, 2, …) to the
inserted rows, in insertion order. -/
def numberRows (vl : List (List Value)) : List (Nat × List Value) :=
  vl.enum.map (fun p => (p.1 + 1, p.2))

/-- One run of `pipeline.py`, from the fetched HTTP status and the frame
`df0` that `pd.read_csv` produced (rows rejected by `on_bad_lines="skip"`
are already gone from `df0.rows`).  Returns the final effect state and the
raised exception, if any.  The steps mirror the script in order: status
check (line 34), header cleaning (44–51), timestamp coercion (63–66),
connect (72), schema/drop/create (82–103), `existing_columns` check
(128–130), the `df.iloc[0]` preview that raises `IndexError` on an empty
frame (145), `values_list` with the empty-list skip (150–152), and the
batched insert plus commit (154–155). -/
def runPipeline (parse : Value → Option Int) (status : Nat)
    (df0 : DataFrame) : RunState × Option PipelineError :=
  let fetched := { initState with fetchAttempts := 1 }
  if status ≠ 200 then (fetched, some (PipelineError.fetchFailed status))
  else
    let df := convertTimestamps parse (cleanHeaders df0)
    let created := { fetched with
      connected := true
      schemaCreated := true
      tableCreated := true
      tableRows := [] }
    if existingColumns df = [] then
      (created, some PipelineError.noExpectedColumns)
    else if df.rows = [] then (created, some PipelineError.indexError)
    else
      let vl := valuesList df
      if vl = [] then (created, none)
      else ({ created with tableRows := numberRows vl, committed := true },
            none)

end Run

section Csv

/-- Split a code-point list at every occurrence of the separator, keeping
empty fields. -/
def splitOnChar (sep : Nat) : PyStr → List PyStr
  | [] => [[]]
  | c :: rest =>
    let r := splitOnChar sep rest
    if c = sep then [] :: r
    else
      match r with
      | [] => [[c]]
      | f :: fs => (c :: f) :: fs

/-- `pd.read_csv(…, sep=";", on_bad_lines="skip")` (`pipeline.py` line 41)
for a simple unquoted payload: the first line gives the headers, each
further non-blank line gives a row of string cells; a line with more
fields than headers is skipped (`on_bad_lines="skip"`), one with fewer is
padded with nulls (missing values become `NaN`). -/
def parseCsv (text : PyStr) : DataFrame :=
  match (splitOnChar 10 text).filter (fun l => l ≠ []) with
  | [] => { headers := [], rows := [] }
  | header :: dataLines =>
    let hs := splitOnChar 59 header
    { headers := hs,
      rows := dataLines.filterMap (fun line =>
        let fs := splitOnChar 59 line
        if hs.length < fs.length then none
        else some (fs.map Value.str ++
          List.replicate (hs.length - fs.length) Value.null)) }

end Csv

section PipelineLemmas

/-- The frame the pipeline inserts from: headers cleaned, then `start` and
`end` coerced (`pipeline.py` lines 44–66). -/
def transformedFrame (parse : Value → Option Int) (df0 : DataFrame) :
    DataFrame :=
  convertTimestamps parse (cleanHeaders df0)

/-- The tuple the pipeline builds from the `i`-th row of a frame
(`pipeline.py` line 150). -/
def projectedRow (df : DataFrame) (i : Nat) : List Value :=
  (existingColumns df).map (rowGet df.headers (df.rows.getD i []))

theorem coerceNamed_headers (parse : Value → Option Int) (name : PyStr)
    (df : DataFrame) : (coerceNamed parse name df).headers = df.headers := by
  unfold coerceNamed
  split <;> rfl

theorem coerceNamed_rows_length (parse : Value → Option Int) (name : PyStr)
    (df : DataFrame) :
    (coerceNamed parse name df).rows.length = df.rows.length := by
  unfold coerceNamed
  split <;> simp

theorem convertTimestamps_headers (parse : Value → Option Int)
    (df : DataFrame) : (convertTimestamps parse df).headers = df.headers := by
  unfold convertTimestamps
  rw [coerceNamed_headers, coerceNamed_headers]

theorem convertTimestamps_rows_length (parse : Value → Option Int)
    (df : DataFrame) :
    (convertTimestamps parse df).rows.length = df.rows.length := by
  unfold convertTimestamps
  rw [coerceNamed_rows_length, coerceNamed_rows_length]

theorem coerceRow_length (parse : Value → Option Int) (name : PyStr)
    (hs : List PyStr) (vs : List Value) :
    (coerceRow parse name hs vs).length = vs.length := by
  induction hs generalizing vs with
  | nil => cases vs <;> rfl
  | cons h ht ih =>
    cases vs with
    | nil => rfl
    | cons v vt => simp [coerceRow, ih]

/-- Cell-level behaviour of one column coercion: the cell under the named
header is coerced, every other cell is returned unchanged. -/
theorem coerceRow_getD (parse : Value → Option Int) (name : PyStr)
    (hs : List PyStr) (vs : List Value) (j : Nat) (hj : j < vs.length) :
    (coerceRow parse name hs vs).getD j Value.null =
      if hs[j]? = some name then coerceVal parse (vs.getD j Value.null)
      else vs.getD j Value.null := by
  induction hs generalizing vs j with
  | nil =>
    cases vs with
    | nil => simp at hj
    | cons v vt => simp [coerceRow]
  | cons h ht ih =>
    cases vs with
    | nil => simp at hj
    | cons v vt =>
      cases j with
      | zero =>
        by_cases hn : h = name <;> simp [coerceRow, hn]
      | succ k =>
        simp only [coerceRow, List.getD_cons_succ, List.getElem?_cons_succ]
        exact ih vt k (by simpa using hj)

end PipelineLemmas

section CellLemmas

theorem coerceNamed_row_length (parse : Value → Option Int) (name : PyStr)
    (df : DataFrame) (i : Nat) (hi : i < df.rows.length) :
    ((coerceNamed parse name df).rows.getD i []).length =
      (df.rows.getD i []).length := by
  unfold coerceNamed
  split
  · have h1 : i < (df.rows.map (coerceRow parse name df.headers)).length := by
      simpa using hi
    rw [List.getD_eq_getElem _ _ h1]
    rw [List.getElem_map]
    rw [coerceRow_length, List.getD_eq_getElem _ _ hi]
  · rfl

theorem coerceNamed_getD (parse : Value → Option Int) (name : PyStr)
    (df : DataFrame) (i j : Nat) (hi : i < df.rows.length)
    (hj : j < (df.rows.getD i []).length) :
    ((coerceNamed parse name df).rows.getD i []).getD j Value.null =
      if df.headers[j]? = some name then
        coerceVal parse ((df.rows.getD i []).getD j Value.null)
      else (df.rows.getD i []).getD j Value.null := by
  unfold coerceNamed
  split
  case isTrue hmem =>
    have h1 : i < (df.rows.map (coerceRow parse name df.headers)).length := by
      simpa using hi
    show ((df.rows.map (coerceRow parse name df.headers)).getD i []).getD j
        Value.null = _
    rw [List.getD_eq_getElem _ _ h1, List.getElem_map,
      ← List.getD_eq_getElem _ _ hi]
    exact coerceRow_getD parse name df.headers (df.rows.getD i []) j hj
  case isFalse hmem =>
    rw [if_neg]
    intro hsome
    exact hmem (List.getElem?_mem hsome)

theorem convertTimestamps_row_length (parse : Value → Option Int)
    (df : DataFrame) (i : Nat) (hi : i < df.rows.length) :
    ((convertTimestamps parse df).rows.getD i []).length =
      (df.rows.getD i []).length := by
  unfold convertTimestamps
  have hi1 : i < (coerceNamed parse (strLit "start") df).rows.length := by
    rw [coerceNamed_rows_length]; exact hi
  rw [coerceNamed_row_length _ _ _ _ hi1, coerceNamed_row_length _ _ _ _ hi]

/-- Cell-level behaviour of step 3 (`pipeline.py` lines 63–66): exactly the
cells lying under a header literally equal to `start` or `end` are coerced;
every other cell is unchanged. -/
theorem convertTimestamps_getD (parse : Value → Option Int) (df : DataFrame)
    (i j : Nat) (hi : i < df.rows.length)
    (hj : j < (df.rows.getD i []).length) :
    ((convertTimestamps parse df).rows.getD i []).getD j Value.null =
      if df.headers[j]? = some (strLit "start") ∨
         df.headers[j]? = some (strLit "end") then
        coerceVal parse ((df.rows.getD i []).getD j Value.null)
      else (df.rows.getD i []).getD j Value.null := by
  unfold convertTimestamps
  have hi1 : i < (coerceNamed parse (strLit "start") df).rows.length := by
    rw [coerceNamed_rows_length]; exact hi
  have hj1 : j < ((coerceNamed parse (strLit "start") df).rows.getD i []).length := by
    rw [coerceNamed_row_length _ _ _ _ hi]; exact hj
  have h2 := coerceNamed_getD parse (strLit "end")
    (coerceNamed parse (strLit "start") df) i j hi1 hj1
  rw [coerceNamed_headers] at h2
  have h1 := coerceNamed_getD parse (strLit "start") df i j hi hj
  rw [h2, h1]
  have hne : strLit "start" ≠ strLit "end" := by decide
  by_cases hstart : df.headers[j]? = some (strLit "start") <;>
    by_cases hend : df.headers[j]? = some (strLit "end")
  · rw [hstart] at hend
    exact absurd (Option.some.inj hend) hne
  · simp [hstart, hend, hne, hne.symm]
  · simp [hstart, hend, hne, hne.symm]
  · simp [hstart, hend]

end CellLemmas

section LookupLemmas

/-- For an association list with distinct keys, looking the surviving keys
back up realigns the filtered keys with the filtered pairs. -/
theorem lookup_filter_map (hs : List PyStr) (m : List (PyStr × PyStr))
    (hnd : (m.map Prod.fst).Nodup) :
    ((m.map Prod.fst).filter (fun c => c ∈ hs)).map
        (fun c => lookupDest c m) =
      (m.filter (fun p => p.1 ∈ hs)).map Prod.snd := by
  induction m with
  | nil => rfl
  | cons p m' ih =>
    obtain ⟨k, v⟩ := p
    rw [List.map_cons] at hnd
    have hk : k ∉ m'.map Prod.fst := (List.nodup_cons.1 hnd).1
    have hnd' : (m'.map Prod.fst).Nodup := (List.nodup_cons.1 hnd).2
    have hcongr :
        ((m'.map Prod.fst).filter (fun c => c ∈ hs)).map
            (fun c => lookupDest c ((k, v) :: m')) =
          ((m'.map Prod.fst).filter (fun c => c ∈ hs)).map
            (fun c => lookupDest c m') := by
      refine List.map_congr_left (fun c hc => ?_)
      have hcm : c ∈ m'.map Prod.fst := List.mem_of_mem_filter hc
      have hck : c ≠ k := fun e => hk (e ▸ hcm)
      simp [lookupDest, hck]
    by_cases hmem : k ∈ hs
    · rw [List.map_cons, List.filter_cons, List.filter_cons]
      rw [if_pos (show (decide (k ∈ hs)) = true by simpa using hmem)]
      rw [if_pos (show (decide ((k, v).1 ∈ hs)) = true by simpa using hmem)]
      rw [List.map_cons, List.map_cons]
      rw [show lookupDest k ((k, v) :: m') = v by simp [lookupDest]]
      rw [hcongr, ih hnd']
    · rw [List.map_cons, List.filter_cons, List.filter_cons]
      rw [if_neg (show ¬(decide (k ∈ hs)) = true by simpa using hmem)]
      rw [if_neg (show ¬(decide ((k, v).1 ∈ hs)) = true by simpa using hmem)]
      rw [hcongr, ih hnd']

/-- The 15 source columns of `COLUMN_MAP` are pairwise distinct. -/
theorem column_map_keys_nodup : (COLUMN_MAP.map Prod.fst).Nodup := by decide

end LookupLemmas

section RunLemmas

theorem numberRows_length (vl : List (List Value)) :
    (numberRows vl).length = vl.length := by simp [numberRows]

theorem numberRows_map_fst (vl : List (List Value)) :
    (numberRows vl).map Prod.fst = List.range' 1 vl.length := by
  unfold numberRows
  rw [List.map_map]
  rw [show (Prod.fst ∘ fun p : Nat × List Value => (p.1 + 1, p.2)) =
    ((fun n => n + 1) ∘ Prod.fst) from rfl]
  rw [← List.map_map, List.enum_map_fst, List.range'_eq_map_range]
  exact List.map_congr_left (fun a _ => Nat.add_comm a 1)

theorem numberRows_getD (vl : List (List Value)) (i : Nat)
    (hi : i < vl.length) :
    (numberRows vl).getD i (0, []) = (i + 1, vl.getD i []) := by
  unfold numberRows
  have h1 : i < (vl.enum.map fun p => (p.1 + 1, p.2)).length := by simpa
  rw [List.getD_eq_getElem _ _ h1, List.getElem_map, List.getElem_enum,
    List.getD_eq_getElem _ _ hi]

theorem valuesList_length (df : DataFrame) :
    (valuesList df).length = df.rows.length := by simp [valuesList]

theorem valuesList_getD (df : DataFrame) (i : Nat)
    (hi : i < df.rows.length) :
    (valuesList df).getD i [] = projectedRow df i := by
  unfold valuesList projectedRow
  have h1 : i <
      (df.rows.map (fun row =>
        (existingColumns df).map (rowGet df.headers row))).length := by
    simpa using hi
  rw [List.getD_eq_getElem _ _ h1, List.getElem_map,
    List.getD_eq_getElem _ _ hi]

end RunLemmas

section SampleInputs

/-- A parse function that accepts nothing (every value is unparseable). -/
def parseNothing : Value → Option Int := fun _ => none

/-- A frame with one mapped header (`Gender`, normalizing to the mapped
source column `gender`) and zero data rows. -/
def emptyGenderFrame : DataFrame :=
  { headers := [strLit "Gender"], rows := [] }

/-- A frame with one mapped header and one data row. -/
def oneRowGenderFrame : DataFrame :=
  { headers := [strLit "Gender"], rows := [[Value.str (strLit "Female")]] }

/-- A frame whose only header matches no `COLUMN_MAP` source column. -/
def unmappedFrame : DataFrame :=
  { headers := [strLit "respondent_id"], rows := [[Value.str (strLit "7")]] }

end SampleInputs

/-- C1: the spec says a fetched CSV with zero data rows (and at least one
mapped header) completes without error, skipping the insert and leaving an
empty table.  The code instead evaluates `df.iloc[0]` (`pipeline.py`
line 145) before reaching the zero-row skip branch (lines 151–152), and on
an empty frame that raises `IndexError`, so the run aborts: on a frame
with the single mapped header `Gender` and no rows, the run ends with the
`IndexError` exception after creating the (empty, uncommitted) table. -/
theorem c1_zero_rows_raise_on_preview :
    runPipeline parseNothing 200 emptyGenderFrame =
      ({ fetchAttempts := 1, connected := true, schemaCreated := true,
         tableCreated := true, tableRows := [], committed := false },
       some PipelineError.indexError) := by rfl

/-- C2: header normalization is exactly the reference composition (trim,
lowercase, spaces to underscores, `&` to `and`, `-` to `_`), and the
cleaning step maps each header in place: no column is synthesized or
dropped (the header list keeps its length and the rows are untouched). -/
theorem c2_normalization_matches_reference (h : PyStr) (df : DataFrame) :
    pyNormalize h = refNormalize h ∧
    (cleanHeaders df).headers = df.headers.map pyNormalize ∧
    (cleanHeaders df).headers.length = df.headers.length ∧
    (cleanHeaders df).rows = df.rows :=
  ⟨rfl, rfl, by simp [cleanHeaders], rfl⟩

/-- C3: header normalization is idempotent: normalizing an
already-normalized header returns it unchanged. -/
theorem c3_normalization_idempotent (h : PyStr) :
    pyNormalize (pyNormalize h) = pyNormalize h :=
  pyNormalize_fixed (headClear_pyNormalize h) (lastClear_pyNormalize h)
    (pyNormalize_good h)

/-- C4: for any frame, the timestamp step coerces exactly the cells lying
under a header literally equal to `start` or `end` (when such a column is
present; when it is absent no cell satisfies the condition and nothing
changes): a parseable value becomes the timestamp it denotes, an
unparseable one becomes null, and every cell of every other column is
unchanged.  The step never fails: it is a total function that also keeps
the frame shape (headers, row count, row lengths). -/
theorem c4_start_end_coercion (parse : Value → Option Int) (df : DataFrame)
    (i j : Nat) (hi : i < df.rows.length)
    (hj : j < (df.rows.getD i []).length) :
    (convertTimestamps parse df).headers = df.headers ∧
    (convertTimestamps parse df).rows.length = df.rows.length ∧
    ((convertTimestamps parse df).rows.getD i []).length =
      (df.rows.getD i []).length ∧
    ((df.headers[j]? = some (strLit "start") ∨
      df.headers[j]? = some (strLit "end")) →
      ((convertTimestamps parse df).rows.getD i []).getD j Value.null =
        coerceVal parse ((df.rows.getD i []).getD j Value.null)) ∧
    ((df.headers[j]? ≠ some (strLit "start") ∧
      df.headers[j]? ≠ some (strLit "end")) →
      ((convertTimestamps parse df).rows.getD i []).getD j Value.null =
        (df.rows.getD i []).getD j Value.null) ∧
    (∀ v, parse v = none → coerceVal parse v = Value.null) ∧
    (∀ v t, parse v = some t → coerceVal parse v = Value.ts t) := by
  refine ⟨convertTimestamps_headers parse df,
    convertTimestamps_rows_length parse df,
    convertTimestamps_row_length parse df i hi, ?_, ?_,
    fun v hv => by simp [coerceVal, hv],
    fun v t hv => by simp [coerceVal, hv]⟩
  · intro hse
    rw [convertTimestamps_getD parse df i j hi hj, if_pos hse]
  · intro hne
    rw [convertTimestamps_getD parse df i j hi hj,
      if_neg (fun hor => hor.elim hne.1 hne.2)]

/-- A frame with a `start` column and a `gender` column, one row. -/
def startGenderFrame : DataFrame :=
  { headers := [strLit "start", strLit "gender"],
    rows := [[Value.str (strLit "bogus"), Value.str (strLit "Female")]] }

/-- Witness for C4 at a concrete frame: the cell under the `start` header
of `startGenderFrame` is coerced (here to null, the value being
unparseable). -/
theorem c4_start_end_coercion_witness :
    ((convertTimestamps parseNothing startGenderFrame).rows.getD 0
        []).getD 0 Value.null =
      coerceVal parseNothing
        ((startGenderFrame.rows.getD 0 []).getD 0 Value.null) :=
  (c4_start_end_coercion parseNothing startGenderFrame 0 0 (by decide)
      (by decide)).2.2.2.1 (Or.inl (by decide))

/-- C5: the destination column list of the generated insert statement is
exactly the image under `COLUMN_MAP` of the mapped source columns present
in the fetched headers, in mapping order: mapped columns absent from the
data are skipped and fetched columns outside the mapping are ignored. -/
theorem c5_insert_columns_are_matched_mapping (df : DataFrame) :
    (buildInsert df).destColumns =
      (COLUMN_MAP.filter (fun p => p.1 ∈ df.headers)).map Prod.snd := by
  show ((COLUMN_MAP.map Prod.fst).filter (fun c => c ∈ df.headers)).map
      (fun c => lookupDest c COLUMN_MAP) = _
  exact lookup_filter_map df.headers COLUMN_MAP column_map_keys_nodup

/-- C6: when no mapped source column appears among the cleaned headers,
the run raises the fatal missing-columns exception (`pipeline.py`
line 130) with the table created empty (schema created, table dropped and
recreated) and nothing inserted or committed: it stops before any insert
statement is built or executed. -/
theorem c6_no_matched_columns_aborts (parse : Value → Option Int)
    (df0 : DataFrame)
    (h : ∀ c ∈ COLUMN_MAP.map Prod.fst, c ∉ (cleanHeaders df0).headers) :
    runPipeline parse 200 df0 =
      ({ fetchAttempts := 1, connected := true, schemaCreated := true,
         tableCreated := true, tableRows := [], committed := false },
       some PipelineError.noExpectedColumns) := by
  have hex : existingColumns (convertTimestamps parse (cleanHeaders df0)) =
      [] := by
    unfold existingColumns
    rw [convertTimestamps_headers, List.filter_eq_nil_iff]
    intro a ha
    simpa using h a ha
  simp only [runPipeline]
  rw [if_neg (show ¬(200 ≠ 200) from fun hne => hne rfl)]
  rw [if_pos hex]
  rfl

/-- Witness for C6: a frame whose only header is unmapped. -/
theorem c6_no_matched_columns_aborts_witness :
    runPipeline parseNothing 200 unmappedFrame =
      ({ fetchAttempts := 1, connected := true, schemaCreated := true,
         tableCreated := true, tableRows := [], committed := false },
       some PipelineError.noExpectedColumns) :=
  c6_no_matched_columns_aborts parseNothing unmappedFrame (by decide)

/-- C7: exactly one fetch is attempted in every run (no retry); a non-200
status aborts with the fatal fetch error before any database interaction
(no connection, no schema or table statement, no rows, no commit); a 200
status proceeds and never raises the fetch error. -/
theorem c7_fetch_status_gate (parse : Value → Option Int) (status : Nat)
    (df0 : DataFrame) :
    (runPipeline parse status df0).1.fetchAttempts = 1 ∧
    (status ≠ 200 →
      runPipeline parse status df0 =
        ({ fetchAttempts := 1, connected := false, schemaCreated := false,
           tableCreated := false, tableRows := [], committed := false },
         some (PipelineError.fetchFailed status))) ∧
    (status = 200 → ∀ c,
      (runPipeline parse status df0).2 ≠
        some (PipelineError.fetchFailed c)) := by
  refine ⟨?_, ?_, ?_⟩
  · simp only [runPipeline]
    split
    · rfl
    · split
      · rfl
      · split
        · rfl
        · split <;> rfl
  · intro hne
    simp only [runPipeline]
    rw [if_pos hne]
    rfl
  · intro h200 c
    subst h200
    simp only [runPipeline]
    rw [if_neg (show ¬(200 ≠ 200) from fun hne => hne rfl)]
    split
    · simp
    · split
      · simp
      · split <;> simp

/-- Witness for C7: a 404 status aborts before touching the database. -/
theorem c7_fetch_status_gate_witness :
    runPipeline parseNothing 404 unmappedFrame =
      ({ fetchAttempts := 1, connected := false, schemaCreated := false,
         tableCreated := false, tableRows := [], committed := false },
       some (PipelineError.fetchFailed 404)) :=
  (c7_fetch_status_gate parseNothing 404 unmappedFrame).2.1 (by decide)

/-- C8: a run that completes without an exception inserts exactly one
destination row per source row of the parsed frame (rows rejected by the
`;`-delimiter bad-line skip are already absent from the parsed frame), in
source order, and the auto-incrementing primary key 1, 2, … follows that
order: the `i`-th table row is the projection of the `i`-th source row
with key `i + 1`. -/
theorem c8_table_mirrors_source_order (parse : Value → Option Int)
    (df0 : DataFrame) (s : RunState)
    (h : runPipeline parse 200 df0 = (s, none)) :
    (transformedFrame parse df0).rows.length = df0.rows.length ∧
    s.tableRows.length = df0.rows.length ∧
    s.tableRows.map Prod.fst = List.range' 1 df0.rows.length ∧
    ∀ i, i < df0.rows.length →
      s.tableRows.getD i (0, []) =
        (i + 1, projectedRow (transformedFrame parse df0) i) := by
  have hlen : (transformedFrame parse df0).rows.length = df0.rows.length := by
    unfold transformedFrame
    rw [convertTimestamps_rows_length]
    rfl
  simp only [runPipeline] at h
  rw [if_neg (show ¬(200 ≠ 200) from fun hne => hne rfl)] at h
  by_cases hex :
      existingColumns (convertTimestamps parse (cleanHeaders df0)) = []
  · rw [if_pos hex] at h
    exact absurd (congrArg Prod.snd h) (by simp)
  · rw [if_neg hex] at h
    by_cases hrows : (convertTimestamps parse (cleanHeaders df0)).rows = []
    · rw [if_pos hrows] at h
      exact absurd (congrArg Prod.snd h) (by simp)
    · rw [if_neg hrows] at h
      have hvl : valuesList (convertTimestamps parse (cleanHeaders df0)) ≠
          [] := by
        intro he
        apply hrows
        have := congrArg List.length he
        rw [valuesList_length] at this
        exact List.length_eq_zero.1 this
      rw [if_neg hvl] at h
      have hs : s =
          { fetchAttempts := 1, connected := true, schemaCreated := true,
            tableCreated := true,
            tableRows := numberRows
              (valuesList (convertTimestamps parse (cleanHeaders df0))),
            committed := true } := by
        have := congrArg Prod.fst h
        simpa using this.symm
      subst hs
      refine ⟨hlen, ?_, ?_, ?_⟩
      · show (numberRows _).length = _
        rw [numberRows_length, valuesList_length]
        exact hlen
      · show (numberRows _).map Prod.fst = _
        rw [numberRows_map_fst, valuesList_length]
        unfold transformedFrame at hlen
        rw [hlen]
      · intro i hi
        have hi' : i < (convertTimestamps parse (cleanHeaders df0)).rows.length := by
          unfold transformedFrame at hlen
          rw [hlen]; exact hi
        have hivl : i <
            (valuesList (convertTimestamps parse (cleanHeaders df0))).length := by
          rw [valuesList_length]; exact hi'
        show (numberRows _).getD i (0, []) = _
        rw [numberRows_getD _ _ hivl, valuesList_getD _ _ hi']
        rfl

/-- Witness for C8: the one-row frame runs to completion and the table
holds exactly its projection under key 1. -/
theorem c8_table_mirrors_source_order_witness :
    (transformedFrame parseNothing oneRowGenderFrame).rows.length =
      oneRowGenderFrame.rows.length ∧
    (runPipeline parseNothing 200 oneRowGenderFrame).1.tableRows.length =
      oneRowGenderFrame.rows.length ∧
    (runPipeline parseNothing 200
        oneRowGenderFrame).1.tableRows.map Prod.fst =
      List.range' 1 oneRowGenderFrame.rows.length ∧
    ∀ i, i < oneRowGenderFrame.rows.length →
      (runPipeline parseNothing 200 oneRowGenderFrame).1.tableRows.getD i
          (0, []) =
        (i + 1, projectedRow (transformedFrame parseNothing oneRowGenderFrame) i) :=
  c8_table_mirrors_source_order parseNothing oneRowGenderFrame
    (runPipeline parseNothing 200 oneRowGenderFrame).1 (by rfl)

/-- C10: the insert statement's destination columns follow `COLUMN_MAP`
declaration order restricted to the present source columns (not the
fetched header order); the number of `%s` placeholders equals the number
of destination columns; and every tuple of `values_list` has exactly that
arity, its `k`-th component being the cell fetched under the `k`-th
matched source column, whose image is the `k`-th destination column. -/
theorem c10_insert_alignment (df : DataFrame) :
    (buildInsert df).destColumns =
      (COLUMN_MAP.filter (fun p => p.1 ∈ df.headers)).map Prod.snd ∧
    (buildInsert df).placeholders = (buildInsert df).destColumns.length ∧
    (valuesList df).length = df.rows.length ∧
    ∀ i, i < (valuesList df).length →
      ((valuesList df).getD i []).length = (buildInsert df).placeholders ∧
      ∀ k, k < (buildInsert df).placeholders →
        ((valuesList df).getD i []).getD k Value.null =
          rowGet df.headers (df.rows.getD i [])
            ((existingColumns df).getD k []) ∧
        (buildInsert df).destColumns.getD k [] =
          lookupDest ((existingColumns df).getD k []) COLUMN_MAP := by
  refine ⟨?_, by simp [buildInsert], valuesList_length df, ?_⟩
  · show ((COLUMN_MAP.map Prod.fst).filter (fun c => c ∈ df.headers)).map
        (fun c => lookupDest c COLUMN_MAP) = _
    exact lookup_filter_map df.headers COLUMN_MAP column_map_keys_nodup
  · intro i hi
    have hi' : i < df.rows.length := by
      rw [← valuesList_length df]; exact hi
    rw [valuesList_getD df i hi']
    have hplc : (buildInsert df).placeholders =
        (existingColumns df).length := rfl
    constructor
    · show (projectedRow df i).length = _
      unfold projectedRow
      rw [hplc, List.length_map]
    · intro k hk
      rw [hplc] at hk
      constructor
      · unfold projectedRow
        have h1 : k < ((existingColumns df).map
            (rowGet df.headers (df.rows.getD i []))).length := by
          simpa using hk
        rw [List.getD_eq_getElem _ _ h1, List.getElem_map,
          List.getD_eq_getElem _ _ hk]
      · show ((existingColumns df).map
            (fun c => lookupDest c COLUMN_MAP)).getD k [] = _
        have h2 : k < ((existingColumns df).map
            (fun c => lookupDest c COLUMN_MAP)).length := by
          simpa using hk
        rw [List.getD_eq_getElem _ _ h2, List.getElem_map,
          List.getD_eq_getElem _ _ hk]

/-- The one-row frame with its header already cleaned (as the pipeline
sees it when it builds the insert statement). -/
def cleanedGenderFrame : DataFrame :=
  { headers := [strLit "gender"], rows := [[Value.str (strLit "Female")]] }

/-- Witness for C10: first tuple component of the cleaned one-row frame
aligns with the first matched source column. -/
theorem c10_insert_alignment_witness :
    ((valuesList cleanedGenderFrame).getD 0 []).getD 0 Value.null =
      rowGet cleanedGenderFrame.headers (cleanedGenderFrame.rows.getD 0 [])
        ((existingColumns cleanedGenderFrame).getD 0 []) :=
  (((c10_insert_alignment cleanedGenderFrame).2.2.2 0 (by decide)).2 0
    (by decide)).1

/-- The concrete CSV payload of the worked example: header line
`Start;End;Age Range;Gender` and one data row. -/
def sampleCsv : PyStr :=
  strLit
    "Start;End;Age Range;Gender\n2023-01-01T10:00:00;2023-01-01T10:30:00;18-24;Female"

/-- C9: on the concrete payload, header cleaning yields
`start, end, age_range, gender`; the insert statement targets
`start_time, end_time, age_range, gender`; and the completed run inserts
exactly one row holding the two parsed timestamps and the two text values
`18-24` and `Female` verbatim — for any timestamp parser that parses the
two literal datetime strings. -/
theorem c9_worked_example (parse : Value → Option Int) (t1 t2 : Int)
    (h1 : parse (Value.str (strLit "2023-01-01T10:00:00")) = some t1)
    (h2 : parse (Value.str (strLit "2023-01-01T10:30:00")) = some t2) :
    (cleanHeaders (parseCsv sampleCsv)).headers =
      [strLit "start", strLit "end", strLit "age_range", strLit "gender"] ∧
    (buildInsert (transformedFrame parse (parseCsv sampleCsv))).destColumns =
      [strLit "start_time", strLit "end_time", strLit "age_range",
       strLit "gender"] ∧
    runPipeline parse 200 (parseCsv sampleCsv) =
      ({ fetchAttempts := 1, connected := true, schemaCreated := true,
         tableCreated := true,
         tableRows := [(1, [Value.ts t1, Value.ts t2,
                            Value.str (strLit "18-24"),
                            Value.str (strLit "Female")])],
         committed := true }, none) := by
  have hts1 : coerceVal parse (Value.str (strLit "2023-01-01T10:00:00")) =
      Value.ts t1 := by
    unfold coerceVal
    rw [h1]
  have hts2 : coerceVal parse (Value.str (strLit "2023-01-01T10:30:00")) =
      Value.ts t2 := by
    unfold coerceVal
    rw [h2]
  refine ⟨by decide, ?_, ?_⟩
  · rfl
  · have h3 : runPipeline parse 200 (parseCsv sampleCsv) =
        ({ fetchAttempts := 1, connected := true, schemaCreated := true,
           tableCreated := true,
           tableRows :=
             [(1, [coerceVal parse (Value.str (strLit "2023-01-01T10:00:00")),
                   coerceVal parse (Value.str (strLit "2023-01-01T10:30:00")),
                   Value.str (strLit "18-24"),
                   Value.str (strLit "Female")])],
           committed := true }, none) := rfl
    rw [h3, hts1, hts2]

/-- A concrete timestamp parser for the worked example: it parses exactly
the two datetime strings of the payload, to their epoch seconds. -/
def sampleParse : Value → Option Int := fun v =>
  match v with
  | Value.str s =>
    if s = strLit "2023-01-01T10:00:00" then some 1672567200
    else if s = strLit "2023-01-01T10:30:00" then some 1672569000
    else none
  | _ => none

/-- Witness for C9 with the concrete parser: the full run result. -/
theorem c9_worked_example_witness :
    runPipeline sampleParse 200 (parseCsv sampleCsv) =
      ({ fetchAttempts := 1, connected := true, schemaCreated := true,
         tableCreated := true,
         tableRows := [(1, [Value.ts 1672567200, Value.ts 1672569000,
                            Value.str (strLit "18-24"),
                            Value.str (strLit "Female")])],
         committed := true }, none) :=
  (c9_worked_example sampleParse 1672567200 1672569000 (by rfl)
    (by rfl)).2.2
